import Mathlib

set_option maxHeartbeats 1000000

/-
Shallow embedding of src/api/index.py (an ESP32 camera-monitor backend built on
FastAPI + asyncpg + vercel_blob).  Each HTTP handler is modelled as a pure
function from the persistent state (database rows and blob objects), the
request inputs, and an injected environment fault (which external calls raise)
to an outcome: the HTTP-level result, the new state, and the trace of storage
events.  Python exception flow is modelled explicitly: an HTTPException that
escapes a handler is rendered by FastAPI as a response with its status and
detail (`HResult.httpError`), any other exception that escapes is left uncaught
(`HResult.uncaught`), and a handler-level `except Exception` clause catches
both kinds.
-/

namespace Esp32CamMonitor

/-- A timezone-aware UTC timestamp as produced by `datetime.datetime.now(pytz.utc)`:
calendar fields plus microseconds. -/
structure Timestamp where
  year : Nat
  month : Nat
  day : Nat
  hour : Nat
  minute : Nat
  second : Nat
  micro : Nat
deriving DecidableEq

/-- Zero-padded decimal rendering, as strftime pads its numeric fields. -/
def padZ (w : Nat) (n : Nat) : String :=
  String.mk (List.replicate (w - (toString n).length) '0') ++ toString n

/-- The format string `%Y%m%d_%H%M%S_%f` applied to a UTC timestamp. -/
def strftimeYmdHMSf (t : Timestamp) : String :=
  padZ 4 t.year ++ padZ 2 t.month ++ padZ 2 t.day ++ "_" ++
  padZ 2 t.hour ++ padZ 2 t.minute ++ padZ 2 t.second ++ "_" ++ padZ 6 t.micro

/-- The blob filename built by upload_image:
`f"motion-capture-{utc_now.strftime('%Y%m%d_%H%M%S_%f')}.jpg"`. -/
def filenameOf (t : Timestamp) : String :=
  "motion-capture-" ++ strftimeYmdHMSf t ++ ".jpg"

/-- Python `datetime.isoformat()` for a UTC (pytz.utc) timestamp; the
microseconds part is omitted when it is zero. -/
def isoformat (t : Timestamp) : String :=
  padZ 4 t.year ++ "-" ++ padZ 2 t.month ++ "-" ++ padZ 2 t.day ++ "T" ++
  padZ 2 t.hour ++ ":" ++ padZ 2 t.minute ++ ":" ++ padZ 2 t.second ++
  (if t.micro = 0 then "" else "." ++ padZ 6 t.micro) ++ "+00:00"

/-- Chronological key of a timestamptz value at microsecond precision; the
multipliers strictly bound each calendar field on valid dates, so the key
orders timestamps chronologically. -/
def tsKey (t : Timestamp) : Nat :=
  (((((t.year * 13 + t.month) * 32 + t.day) * 24 + t.hour) * 60 + t.minute) * 60
    + t.second) * 1000000 + t.micro

/-- A row of the `motion_images` table (the auto-incrementing id column is not
used by any handler and is omitted). -/
structure ImageRec where
  image_url : String
  captured_at : Timestamp
deriving DecidableEq

/-- A row of the `camera_control` table: `id INT PRIMARY KEY`,
`trigger_capture BOOLEAN NOT NULL`. -/
structure CtrlRow where
  rid : Int
  trigger_capture : Bool
deriving DecidableEq

/-- A stored blob object, as written by `vercel_blob.put`. -/
structure Blob where
  pathname : String
  payload : List Nat
  access : String
deriving DecidableEq

/-- The persistent state the handlers act on: the two database tables and the
blob store. -/
structure Store where
  motion_images : List ImageRec
  camera_control : List CtrlRow
  blobs : List Blob
deriving DecidableEq

def emptyStore : Store := ⟨[], [], []⟩

/-- A raised Python exception: `fastapi.HTTPException` or an error from the
database or blob client. -/
inductive Exc where
  | http (status : Nat) (detail : String)
  | dbErr (msg : String)
  | blobErr (msg : String)
deriving DecidableEq

/-- `str(e)`: starlette renders an HTTPException as "status: detail"; for the
client errors the text is the message itself. -/
def excStr : Exc → String
  | .http s d => toString s ++ ": " ++ d
  | .dbErr m => m
  | .blobErr m => m

/-- Injected environment faults: whether `asyncpg.connect` raises, whether the
schema-init execute raises, and optional messages making the handler's first
statement, its second statement, or the blob `put` raise. -/
structure Fault where
  connect : Bool
  initExec : Bool
  stmt : Option String
  stmt2 : Option String
  blob : Option String
deriving DecidableEq

/-- The fault-free environment: every external call succeeds. -/
def noFault : Fault := ⟨false, false, none, none, none⟩

def faultConnect : Fault := ⟨true, false, none, none, none⟩

def faultStmt (m : String) : Fault := ⟨false, false, some m, none, none⟩

def faultBlob (m : String) : Fault := ⟨false, false, none, none, some m⟩

/-- Storage-access events, in the order the handler issues them. -/
inductive Event where
  | connect
  | execStmt (q : String)
  | fetchStmt (q : String)
  | closeConn
  | blobPut (name : String)
deriving DecidableEq

/-- JSON response bodies produced by the handlers. -/
inductive RBody where
  | message (m : String)
  | trigger (b : Bool)
  | uploaded (m : String) (url : String)
  | images (xs : List (String × String))
  | error (e : String)
deriving DecidableEq

/-- The HTTP-level result of a request: a JSONResponse returned by the handler,
an HTTPException escaping to FastAPI's handler (rendered with its status and
detail), or a non-HTTP exception escaping the handler uncaught. -/
inductive HResult where
  | resp (status : Nat) (body : RBody)
  | httpError (status : Nat) (detail : String)
  | uncaught (e : Exc)
deriving DecidableEq

/-- Result, post-state and storage-event trace of one request. -/
structure Outcome where
  result : HResult
  store : Store
  events : List Event
deriving DecidableEq

/-- `verify_api_key` together with `APIKeyHeader(auto_error=True)`: a missing
`x-api-key` header is rejected by the security scheme with 403
"Not authenticated"; a present but mismatching key raises HTTPException 403.
Returns `none` when the key is accepted. -/
def verify_api_key (apiKey : String) (key : Option String) : Option HResult :=
  match key with
  | none => some (.httpError 403 "Not authenticated")
  | some k =>
    if k = apiKey then none
    else some (.httpError 403 "Could not validate credentials")

def sqlCreateTables : String :=
  "CREATE TABLE IF NOT EXISTS motion_images (id SERIAL PRIMARY KEY, " ++
  "image_url TEXT NOT NULL, captured_at TIMESTAMPTZ NOT NULL); " ++
  "CREATE TABLE IF NOT EXISTS camera_control (id INT PRIMARY KEY, " ++
  "trigger_capture BOOLEAN NOT NULL DEFAULT FALSE); " ++
  "INSERT INTO camera_control (id, trigger_capture) VALUES (1, FALSE) " ++
  "ON CONFLICT (id) DO NOTHING;"

/-- Data effect of CREATE_TABLE_QUERY: the tables are created if absent
(implicit in the model) and the single control row is seeded by
`INSERT ... VALUES (1, FALSE) ON CONFLICT (id) DO NOTHING`. -/
def initSeed (rows : List CtrlRow) : List CtrlRow :=
  if rows.any (fun r => r.rid == 1) then rows else rows ++ [⟨1, false⟩]

/-- `get_db_connection`: connect, then run CREATE_TABLE_QUERY; any exception is
caught and re-raised as HTTPException 500 with the fixed detail.  When the
schema-init execute fails after a successful connect, the connection is not
closed. -/
def get_db_connection (f : Fault) (s : Store) : Except Exc Store × List Event :=
  if f.connect then
    (.error (.http 500 "Could not connect to the database."), [])
  else if f.initExec then
    (.error (.http 500 "Could not connect to the database."), [.connect])
  else
    (.ok { s with camera_control := initSeed s.camera_control },
     [.connect, .execStmt sqlCreateTables])

def sqlSetTrigger : String :=
  "UPDATE camera_control SET trigger_capture = TRUE WHERE id = 1"

def sqlClearTrigger : String :=
  "UPDATE camera_control SET trigger_capture = FALSE WHERE id = 1"

def sqlReadTrigger : String :=
  "SELECT trigger_capture FROM camera_control WHERE id = 1"

def sqlInsertImage : String :=
  "INSERT INTO motion_images (image_url, captured_at) VALUES ($1, $2)"

def sqlSelectImages : String :=
  "SELECT image_url, captured_at FROM motion_images ORDER BY captured_at DESC"

/-- Effect of `UPDATE camera_control SET trigger_capture = b WHERE id = 1`. -/
def setTriggerRows (b : Bool) (rows : List CtrlRow) : List CtrlRow :=
  rows.map (fun r => if r.rid == 1 then { r with trigger_capture := b } else r)

/-- POST /api/trigger-capture: acquire a connection, set the flag, close,
return 200.  There is no try/except in the handler body, so a failing UPDATE
propagates uncaught and skips the close. -/
def trigger_capture (apiKey : String) (key : Option String) (f : Fault)
    (s : Store) : Outcome :=
  match verify_api_key apiKey key with
  | some r => ⟨r, s, []⟩
  | none =>
    match get_db_connection f s with
    | (.error (.http st d), ev) => ⟨.httpError st d, s, ev⟩
    | (.error e, ev) => ⟨.uncaught e, s, ev⟩
    | (.ok s1, ev) =>
      match f.stmt with
      | some m => ⟨.uncaught (.dbErr m), s1, ev ++ [.execStmt sqlSetTrigger]⟩
      | none =>
        ⟨.resp 200 (.message "Capture triggered successfully."),
         { s1 with camera_control := setTriggerRows true s1.camera_control },
         ev ++ [.execStmt sqlSetTrigger, .closeConn]⟩

/-- Body of check_trigger after the connection is acquired: fetch the id = 1
row, read the flag (an absent row is read as False), and issue the clearing
UPDATE only when the read value was True.  Returns the pre-read value and the
updated rows; a raised statement error propagates. -/
def check_trigger_core (f : Fault) (rows : List CtrlRow) :
    Except Exc (Bool × List CtrlRow) × List Event :=
  match f.stmt with
  | some m => (.error (.dbErr m), [.fetchStmt sqlReadTrigger])
  | none =>
    let record := rows.find? (fun r => r.rid == 1)
    let trigger_status := match record with
      | some r => r.trigger_capture
      | none => false
    if trigger_status then
      match f.stmt2 with
      | some m =>
        (.error (.dbErr m), [.fetchStmt sqlReadTrigger, .execStmt sqlClearTrigger])
      | none =>
        (.ok (trigger_status, setTriggerRows false rows),
         [.fetchStmt sqlReadTrigger, .execStmt sqlClearTrigger])
    else
      (.ok (trigger_status, rows), [.fetchStmt sqlReadTrigger])

/-- GET /api/check-trigger: acquire a connection, run the core read-then-clear
sequence, close, return 200 with the pre-read flag.  No try/except, so a
failing statement propagates uncaught and skips the close. -/
def check_trigger (apiKey : String) (key : Option String) (f : Fault)
    (s : Store) : Outcome :=
  match verify_api_key apiKey key with
  | some r => ⟨r, s, []⟩
  | none =>
    match get_db_connection f s with
    | (.error (.http st d), ev) => ⟨.httpError st d, s, ev⟩
    | (.error e, ev) => ⟨.uncaught e, s, ev⟩
    | (.ok s1, ev) =>
      match check_trigger_core f s1.camera_control with
      | (.error e, ev2) => ⟨.uncaught e, s1, ev ++ ev2⟩
      | (.ok (b, rows), ev2) =>
        ⟨.resp 200 (.trigger b), { s1 with camera_control := rows },
         ev ++ ev2 ++ [.closeConn]⟩

/-- POST /api/upload.  The whole body sits inside `try ... except Exception`,
so the HTTPException(400) raised for an empty payload — and any HTTPException
from get_db_connection — is caught by the handler itself and converted into a
500 JSON response carrying `str(e)`.  `urlOf` is the blob provider's mapping
from pathname to public URL. -/
def upload_image (apiKey : String) (key : Option String) (urlOf : String → String)
    (utc_now : Timestamp) (image_bytes : List Nat) (f : Fault) (s : Store) :
    Outcome :=
  match verify_api_key apiKey key with
  | some r => ⟨r, s, []⟩
  | none =>
    if image_bytes.isEmpty then
      ⟨.resp 500 (.error (excStr (.http 400 "No image data received."))), s, []⟩
    else
      let filename := filenameOf utc_now
      match f.blob with
      | some m => ⟨.resp 500 (.error (excStr (.blobErr m))), s, [.blobPut filename]⟩
      | none =>
        let image_url := urlOf filename
        let s1 := { s with blobs := s.blobs ++ [⟨filename, image_bytes, "public"⟩] }
        match get_db_connection f s1 with
        | (.error e, ev) =>
          ⟨.resp 500 (.error (excStr e)), s1, [.blobPut filename] ++ ev⟩
        | (.ok s2, ev) =>
          match f.stmt with
          | some m =>
            ⟨.resp 500 (.error (excStr (.dbErr m))), s2,
             [.blobPut filename] ++ ev ++ [.execStmt sqlInsertImage]⟩
          | none =>
            ⟨.resp 201 (.uploaded "Image uploaded successfully" image_url),
             { s2 with motion_images := s2.motion_images ++ [⟨image_url, utc_now⟩] },
             [.blobPut filename] ++ ev ++ [.execStmt sqlInsertImage, .closeConn]⟩

/-- Effect of `SELECT image_url, captured_at FROM motion_images ORDER BY
captured_at DESC`: the rows sorted by captured timestamp, most recent first. -/
def fetchImagesDesc (rows : List ImageRec) : List ImageRec :=
  rows.mergeSort (fun a b => decide (tsKey b.captured_at ≤ tsKey a.captured_at))

/-- GET /api/images: fetch all rows ordered by captured_at DESC, close, return
200 with url/isoformat-timestamp pairs.  The body sits inside
`try ... except Exception`, so any error becomes a 500 carrying `str(e)`. -/
def get_images (apiKey : String) (key : Option String) (f : Fault) (s : Store) :
    Outcome :=
  match verify_api_key apiKey key with
  | some r => ⟨r, s, []⟩
  | none =>
    match get_db_connection f s with
    | (.error e, ev) => ⟨.resp 500 (.error (excStr e)), s, ev⟩
    | (.ok s1, ev) =>
      match f.stmt with
      | some m =>
        ⟨.resp 500 (.error (excStr (.dbErr m))), s1, ev ++ [.fetchStmt sqlSelectImages]⟩
      | none =>
        let records := fetchImagesDesc s1.motion_images
        ⟨.resp 200 (.images (records.map (fun r => (r.image_url, isoformat r.captured_at)))),
         s1, ev ++ [.fetchStmt sqlSelectImages, .closeConn]⟩

/-- The value of the flag in the first control row with id = 1, if any. -/
def rowFlag (rows : List CtrlRow) : Option Bool :=
  (rows.find? (fun r => r.rid == 1)).map (fun r => r.trigger_capture)

/-- Number of control rows with id = 1. -/
def ctrlCount (rows : List CtrlRow) : Nat :=
  rows.countP (fun r => r.rid == 1)

/-- Number of connection acquisitions in a trace. -/
def connCount (ev : List Event) : Nat :=
  ev.countP (fun e => decide (e = Event.connect))

/-- Number of connection releases in a trace. -/
def closeCount (ev : List Event) : Nat :=
  ev.countP (fun e => decide (e = Event.closeConn))

end Esp32CamMonitor

namespace Esp32CamMonitor

theorem verify_api_key_self (apiKey : String) :
    verify_api_key apiKey (some apiKey) = none := by
  simp [verify_api_key]

theorem rowFlag_setTriggerRows (b : Bool) (rows : List CtrlRow) :
    rowFlag (setTriggerRows b rows) = (rowFlag rows).map (fun _ => b) := by
  induction rows with
  | nil => rfl
  | cons r rs ih =>
    unfold rowFlag setTriggerRows at ih ⊢
    rw [List.map_cons, List.find?_cons, List.find?_cons]
    by_cases h : (r.rid == 1) = true
    · simp only [h, if_true]
      simp
    · have h2 : (r.rid == 1) = false := by simpa using h
      simp only [h2, Bool.false_eq_true, if_false]
      exact ih

theorem rowFlag_initSeed (rows : List CtrlRow) :
    rowFlag (initSeed rows) = some ((rowFlag rows).getD false) := by
  unfold initSeed
  by_cases h : rows.any (fun r => r.rid == 1)
  · rw [if_pos h]
    rcases hf : rows.find? (fun r => r.rid == 1) with _ | r
    · rw [List.find?_eq_none] at hf
      rw [List.any_eq_true] at h
      obtain ⟨x, hx, hpx⟩ := h
      exact absurd hpx (hf x hx)
    · simp [rowFlag, hf]
  · rw [if_neg h]
    have hf : rows.find? (fun r => r.rid == 1) = none := by
      rw [List.find?_eq_none]
      intro x hx hpx
      exact h (List.any_eq_true.mpr ⟨x, hx, hpx⟩)
    simp [rowFlag, hf]

theorem check_trigger_core_noFault (rows : List CtrlRow) :
    check_trigger_core noFault rows =
      if (rowFlag rows).getD false then
        (.ok (true, setTriggerRows false rows),
         [.fetchStmt sqlReadTrigger, .execStmt sqlClearTrigger])
      else
        (.ok (false, rows), [.fetchStmt sqlReadTrigger]) := by
  unfold check_trigger_core noFault
  rcases hf : rows.find? (fun r => r.rid == 1) with _ | r
  · simp [rowFlag, hf]
  · rcases hb : r.trigger_capture <;> simp [rowFlag, hf, hb]

theorem trigger_capture_run (apiKey : String) (s : Store) :
    trigger_capture apiKey (some apiKey) noFault s =
      ⟨.resp 200 (.message "Capture triggered successfully."),
       { s with camera_control := setTriggerRows true (initSeed s.camera_control) },
       [.connect, .execStmt sqlCreateTables, .execStmt sqlSetTrigger, .closeConn]⟩ := by
  unfold trigger_capture
  rw [verify_api_key_self]
  rfl

theorem check_trigger_run (apiKey : String) (s : Store) :
    check_trigger apiKey (some apiKey) noFault s =
      if (rowFlag (initSeed s.camera_control)).getD false then
        ⟨.resp 200 (.trigger true),
         { s with camera_control := setTriggerRows false (initSeed s.camera_control) },
         [.connect, .execStmt sqlCreateTables, .fetchStmt sqlReadTrigger,
          .execStmt sqlClearTrigger, .closeConn]⟩
      else
        ⟨.resp 200 (.trigger false),
         { s with camera_control := initSeed s.camera_control },
         [.connect, .execStmt sqlCreateTables, .fetchStmt sqlReadTrigger, .closeConn]⟩ := by
  have hcore := check_trigger_core_noFault (initSeed s.camera_control)
  unfold noFault at hcore
  simp only [check_trigger, verify_api_key_self, get_db_connection, noFault,
    Bool.false_eq_true, if_false]
  rw [hcore]
  rcases hb : (rowFlag (initSeed s.camera_control)).getD false <;> simp [hb]

theorem verify_api_key_ne (apiKey k : String) (h : ¬(k = apiKey)) :
    verify_api_key apiKey (some k)
      = some (.httpError 403 "Could not validate credentials") := by
  simp [verify_api_key, h]

theorem upload_image_run (apiKey : String) (urlOf : String → String)
    (t : Timestamp) (bytes : List Nat) (s : Store) (h : bytes ≠ []) :
    upload_image apiKey (some apiKey) urlOf t bytes noFault s =
      ⟨.resp 201 (.uploaded "Image uploaded successfully" (urlOf (filenameOf t))),
       ⟨s.motion_images ++ [⟨urlOf (filenameOf t), t⟩],
        initSeed s.camera_control,
        s.blobs ++ [⟨filenameOf t, bytes, "public"⟩]⟩,
       [.blobPut (filenameOf t), .connect, .execStmt sqlCreateTables,
        .execStmt sqlInsertImage, .closeConn]⟩ := by
  have hb : bytes.isEmpty = false := by simpa using h
  simp only [upload_image, verify_api_key_self, get_db_connection, noFault, hb,
    Bool.false_eq_true, if_false]
  rfl

theorem get_images_run (apiKey : String) (s : Store) :
    get_images apiKey (some apiKey) noFault s =
      ⟨.resp 200 (.images ((fetchImagesDesc s.motion_images).map
          (fun r => (r.image_url, isoformat r.captured_at)))),
       { s with camera_control := initSeed s.camera_control },
       [.connect, .execStmt sqlCreateTables, .fetchStmt sqlSelectImages,
        .closeConn]⟩ := by
  simp only [get_images, verify_api_key_self, get_db_connection, noFault,
    Bool.false_eq_true, if_false]
  rfl

theorem ctrlCount_setTriggerRows (b : Bool) (rows : List CtrlRow) :
    ctrlCount (setTriggerRows b rows) = ctrlCount rows := by
  induction rows with
  | nil => rfl
  | cons r rs ih =>
    unfold ctrlCount setTriggerRows at ih ⊢
    rw [List.map_cons, List.countP_cons, List.countP_cons]
    by_cases h : (r.rid == 1) = true
    · have hh : (({ rid := r.rid, trigger_capture := b } : CtrlRow).rid == 1) = true := h
      simp only [if_pos h, hh, h, if_true, ih]
    · have h2 : (r.rid == 1) = false := by simpa using h
      simp only [if_neg h, h2, Bool.false_eq_true, if_false, ih]

theorem ctrlCount_initSeed (rows : List CtrlRow) (h : ctrlCount rows ≤ 1) :
    ctrlCount (initSeed rows) = 1 := by
  unfold initSeed
  by_cases ha : rows.any (fun r => r.rid == 1)
  · rw [if_pos ha]
    have hpos : 0 < ctrlCount rows := by
      rw [List.any_eq_true] at ha
      obtain ⟨x, hx, hpx⟩ := ha
      exact List.countP_pos_iff.mpr ⟨x, hx, hpx⟩
    omega
  · rw [if_neg ha]
    unfold ctrlCount at h ⊢
    rw [List.countP_append]
    have h0 : rows.countP (fun r => r.rid == 1) = 0 :=
      List.countP_eq_zero.mpr
        (fun a ha2 hpa => ha (List.any_eq_true.mpr ⟨a, ha2, hpa⟩))
    rw [h0]
    rfl

/-- C1 (bug demonstration): POST /api/upload with a valid key and an empty
payload responds with HTTP 500 — the handler's own `except Exception` catches
the HTTPException(400) it just raised and converts it into a 500 carrying
str(e) — while, as the claim states, writing no blob, inserting no image
record, and touching no storage at all. -/
theorem c1_empty_upload_returns_500 :
    upload_image "secret" (some "secret") (fun n => "https://blob.host/" ++ n)
        ⟨2026, 10, 12, 9, 30, 1, 123456⟩ [] noFault emptyStore
      = ⟨.resp 500 (.error "400: No image data received."), emptyStore, []⟩ := by
  decide

/-- C2 (counterexample): with a valid key, a failing UPDATE statement in
trigger_capture leaves the acquired storage connection unreleased — the trace
holds one connect and no close — refuting release on all error paths. -/
theorem c2_statement_failure_leaks_connection :
    connCount (trigger_capture "secret" (some "secret")
        (faultStmt "update failed") emptyStore).events = 1 ∧
    closeCount (trigger_capture "secret" (some "secret")
        (faultStmt "update failed") emptyStore).events = 0 := by
  decide

/-- C2 (amended): on fault-free executions every operation balances connection
acquisitions with releases, for any supplied key (including rejected ones) and
any store; the guarantee does not extend to failing statements, where the
acquired connection is never closed. -/
theorem c2_fault_free_connection_release (apiKey : String) (key : Option String)
    (urlOf : String → String) (t : Timestamp) (bytes : List Nat) (s : Store) :
    closeCount (trigger_capture apiKey key noFault s).events
      = connCount (trigger_capture apiKey key noFault s).events ∧
    closeCount (check_trigger apiKey key noFault s).events
      = connCount (check_trigger apiKey key noFault s).events ∧
    closeCount (upload_image apiKey key urlOf t bytes noFault s).events
      = connCount (upload_image apiKey key urlOf t bytes noFault s).events ∧
    closeCount (get_images apiKey key noFault s).events
      = connCount (get_images apiKey key noFault s).events := by
  rcases key with _ | k
  · exact ⟨rfl, rfl, rfl, rfl⟩
  · by_cases hk : k = apiKey
    · subst hk
      refine ⟨?_, ?_, ?_, ?_⟩
      · rw [trigger_capture_run]
        rfl
      · rw [check_trigger_run]
        rcases hb : (rowFlag (initSeed s.camera_control)).getD false <;> rfl
      · rcases bytes with _ | ⟨b0, bs⟩
        · simp [upload_image, verify_api_key_self, connCount, closeCount]
        · rw [upload_image_run k urlOf t (b0 :: bs) s (List.cons_ne_nil b0 bs)]
          rfl
      · rw [get_images_run]
        rfl
    · have hv := verify_api_key_ne apiKey k hk
      refine ⟨?_, ?_, ?_, ?_⟩ <;>
        simp [trigger_capture, check_trigger, upload_image, get_images, hv,
          connCount, closeCount]

/-- C3 (counterexample): a failing UPDATE statement in trigger_capture is not
caught at the handler boundary: the database exception escapes the handler
uncaught instead of producing a 500 response that carries the error text. -/
theorem c3_statement_failure_escapes_uncaught :
    (trigger_capture "secret" (some "secret")
        (faultStmt "update failed") emptyStore).result
      = .uncaught (.dbErr "update failed") := by
  decide

/-- C3 (amended): upload_image and get_images catch storage and blob errors
and return a 500 response whose body carries str(e); in trigger_capture and
check_trigger only the connection-acquisition failure is converted — by
get_db_connection, with a fixed detail, surfacing as a 500 through FastAPI's
HTTPException handling — while a statement failure after acquisition escapes
the handler uncaught. -/
theorem c3_error_conversion_per_handler (apiKey m : String)
    (urlOf : String → String) (t : Timestamp) (bytes : List Nat) (s : Store)
    (h : bytes ≠ []) :
    (upload_image apiKey (some apiKey) urlOf t bytes (faultBlob m) s).result
      = .resp 500 (.error m) ∧
    (upload_image apiKey (some apiKey) urlOf t bytes (faultStmt m) s).result
      = .resp 500 (.error m) ∧
    (get_images apiKey (some apiKey) (faultStmt m) s).result
      = .resp 500 (.error m) ∧
    (get_images apiKey (some apiKey) faultConnect s).result
      = .resp 500 (.error "500: Could not connect to the database.") ∧
    (trigger_capture apiKey (some apiKey) faultConnect s).result
      = .httpError 500 "Could not connect to the database." ∧
    (check_trigger apiKey (some apiKey) faultConnect s).result
      = .httpError 500 "Could not connect to the database." ∧
    (trigger_capture apiKey (some apiKey) (faultStmt m) s).result
      = .uncaught (.dbErr m) ∧
    (check_trigger apiKey (some apiKey) (faultStmt m) s).result
      = .uncaught (.dbErr m) := by
  have hb : bytes.isEmpty = false := by simpa using h
  have h500 : (toString 500 : String) = "500" := rfl
  refine ⟨?_, ?_, ?_, ?_, ?_, ?_, ?_, ?_⟩ <;>
    simp [upload_image, get_images, trigger_capture, check_trigger,
      check_trigger_core, verify_api_key_self, get_db_connection, excStr,
      faultBlob, faultStmt, faultConnect, hb, h500]

theorem c3_error_conversion_witness :
    (upload_image "k" (some "k") (fun n => "https://blob.host/" ++ n)
        ⟨2026, 10, 12, 9, 30, 1, 123456⟩ [7] (faultBlob "boom") emptyStore).result
      = .resp 500 (.error "boom") ∧
    (upload_image "k" (some "k") (fun n => "https://blob.host/" ++ n)
        ⟨2026, 10, 12, 9, 30, 1, 123456⟩ [7] (faultStmt "boom") emptyStore).result
      = .resp 500 (.error "boom") ∧
    (get_images "k" (some "k") (faultStmt "boom") emptyStore).result
      = .resp 500 (.error "boom") ∧
    (get_images "k" (some "k") faultConnect emptyStore).result
      = .resp 500 (.error "500: Could not connect to the database.") ∧
    (trigger_capture "k" (some "k") faultConnect emptyStore).result
      = .httpError 500 "Could not connect to the database." ∧
    (check_trigger "k" (some "k") faultConnect emptyStore).result
      = .httpError 500 "Could not connect to the database." ∧
    (trigger_capture "k" (some "k") (faultStmt "boom") emptyStore).result
      = .uncaught (.dbErr "boom") ∧
    (check_trigger "k" (some "k") (faultStmt "boom") emptyStore).result
      = .uncaught (.dbErr "boom") :=
  c3_error_conversion_per_handler "k" "boom" (fun n => "https://blob.host/" ++ n)
    ⟨2026, 10, 12, 9, 30, 1, 123456⟩ [7] emptyStore (by decide)

/-- C4: for every state of the control flag, check_trigger returns the
pre-read value of the flag (an absent row reading as false), and on return the
stored flag is false; in particular a true flag is cleared to false as part of
the same operation. -/
theorem c4_check_trigger_reads_and_clears (apiKey : String) (s : Store) :
    (check_trigger apiKey (some apiKey) noFault s).result
      = .resp 200 (.trigger ((rowFlag s.camera_control).getD false)) ∧
    rowFlag (check_trigger apiKey (some apiKey) noFault s).store.camera_control
      = some false := by
  have hrun := check_trigger_run apiKey s
  rw [rowFlag_initSeed, Option.getD_some] at hrun
  rcases hb : (rowFlag s.camera_control).getD false <;>
    rw [hb] at hrun <;>
    simp [hrun, hb, rowFlag_initSeed, rowFlag_setTriggerRows]

/-- C5: on a freshly initialized system the first poll returns false; after a
manual trigger request the immediately following poll returns true, and a
second immediate poll returns false again. -/
theorem c5_trigger_poll_sequence :
    (check_trigger "k" (some "k") noFault emptyStore).result
      = .resp 200 (.trigger false) ∧
    (check_trigger "k" (some "k") noFault
        (trigger_capture "k" (some "k") noFault emptyStore).store).result
      = .resp 200 (.trigger true) ∧
    (check_trigger "k" (some "k") noFault
        (check_trigger "k" (some "k") noFault
          (trigger_capture "k" (some "k") noFault emptyStore).store).store).result
      = .resp 200 (.trigger false) := by
  decide

/-- C10: when the row query returns no record, check_trigger's post-connection
body treats the flag as false: it raises nothing, returns false, leaves the
rows unchanged, and issues no clearing update (the trace holds only the
SELECT). -/
theorem c10_absent_row_reads_false (rows : List CtrlRow)
    (h : rowFlag rows = none) :
    check_trigger_core noFault rows
      = (.ok (false, rows), [.fetchStmt sqlReadTrigger]) := by
  rw [check_trigger_core_noFault, h]
  simp

theorem c10_absent_row_witness :
    rowFlag [] = none ∧
    check_trigger_core noFault []
      = (.ok (false, []), [.fetchStmt sqlReadTrigger]) :=
  ⟨rfl, c10_absent_row_reads_false [] rfl⟩

/-- C6: with a fault-free environment, a non-empty upload writes exactly one
blob — named with the current UTC timestamp formatted as
motion-capture-YYYYMMDD_HHMMSS_ffffff.jpg — under public access, inserts
exactly one image record carrying the blob URL and the very timestamp embedded
in the filename, and returns 201 with that URL. -/
theorem c6_upload_success (apiKey : String) (urlOf : String → String)
    (t : Timestamp) (bytes : List Nat) (s : Store) (h : bytes ≠ []) :
    (upload_image apiKey (some apiKey) urlOf t bytes noFault s).result
      = .resp 201 (.uploaded "Image uploaded successfully" (urlOf (filenameOf t))) ∧
    (upload_image apiKey (some apiKey) urlOf t bytes noFault s).store.blobs
      = s.blobs ++ [⟨filenameOf t, bytes, "public"⟩] ∧
    (upload_image apiKey (some apiKey) urlOf t bytes noFault s).store.motion_images
      = s.motion_images ++ [⟨urlOf (filenameOf t), t⟩] ∧
    filenameOf t
      = "motion-capture-" ++ padZ 4 t.year ++ padZ 2 t.month ++ padZ 2 t.day
        ++ "_" ++ padZ 2 t.hour ++ padZ 2 t.minute ++ padZ 2 t.second
        ++ "_" ++ padZ 6 t.micro ++ ".jpg" := by
  rw [upload_image_run apiKey urlOf t bytes s h]
  refine ⟨rfl, rfl, rfl, ?_⟩
  simp [filenameOf, strftimeYmdHMSf, String.append_assoc]

theorem c6_upload_success_witness :
    (upload_image "k" (some "k") (fun n => "https://blob.host/" ++ n)
        ⟨2026, 10, 12, 9, 30, 1, 123456⟩ [7] noFault emptyStore).result
      = .resp 201 (.uploaded "Image uploaded successfully"
          ("https://blob.host/" ++ filenameOf ⟨2026, 10, 12, 9, 30, 1, 123456⟩)) ∧
    (upload_image "k" (some "k") (fun n => "https://blob.host/" ++ n)
        ⟨2026, 10, 12, 9, 30, 1, 123456⟩ [7] noFault emptyStore).store.blobs
      = emptyStore.blobs
          ++ [⟨filenameOf ⟨2026, 10, 12, 9, 30, 1, 123456⟩, [7], "public"⟩] ∧
    (upload_image "k" (some "k") (fun n => "https://blob.host/" ++ n)
        ⟨2026, 10, 12, 9, 30, 1, 123456⟩ [7] noFault emptyStore).store.motion_images
      = emptyStore.motion_images
          ++ [⟨"https://blob.host/" ++ filenameOf ⟨2026, 10, 12, 9, 30, 1, 123456⟩,
               ⟨2026, 10, 12, 9, 30, 1, 123456⟩⟩] ∧
    filenameOf ⟨2026, 10, 12, 9, 30, 1, 123456⟩
      = "motion-capture-" ++ padZ 4 2026 ++ padZ 2 10 ++ padZ 2 12
        ++ "_" ++ padZ 2 9 ++ padZ 2 30 ++ padZ 2 1
        ++ "_" ++ padZ 6 123456 ++ ".jpg" :=
  c6_upload_success "k" (fun n => "https://blob.host/" ++ n)
    ⟨2026, 10, 12, 9, 30, 1, 123456⟩ [7] emptyStore (by decide)

/-- C7: get_images returns 200 with the url/timestamp rendering of the stored
records sorted by captured timestamp descending: the fetched sequence is a
permutation of the table (every record exactly once, no filtering), is sorted
in descending chronological order, keeps the table's length (N records after N
inserts), and the empty table fetches the empty sequence. -/
theorem c7_get_images_all_sorted_desc (apiKey : String) (s : Store) :
    (get_images apiKey (some apiKey) noFault s).result
      = .resp 200 (.images ((fetchImagesDesc s.motion_images).map
          (fun r => (r.image_url, isoformat r.captured_at)))) ∧
    (fetchImagesDesc s.motion_images).Perm s.motion_images ∧
    (fetchImagesDesc s.motion_images).Pairwise
      (fun a b => tsKey b.captured_at ≤ tsKey a.captured_at) ∧
    (fetchImagesDesc s.motion_images).length = s.motion_images.length ∧
    fetchImagesDesc [] = ([] : List ImageRec) := by
  refine ⟨?_, ?_, ?_, ?_, ?_⟩
  · rw [get_images_run]
  · exact List.mergeSort_perm s.motion_images _
  · refine List.Pairwise.imp (fun hab => of_decide_eq_true hab)
      (List.sorted_mergeSort ?_ ?_ s.motion_images)
    · intro a b c hab hbc
      exact decide_eq_true
        (Nat.le_trans (of_decide_eq_true hbc) (of_decide_eq_true hab))
    · intro a b
      rcases Nat.le_total (tsKey b.captured_at) (tsKey a.captured_at) with hle | hle
      · simp [hle]
      · simp [hle]
  · exact List.length_mergeSort s.motion_images
  · simp [fetchImagesDesc]

/-- C8: a request whose x-api-key header is absent or differs from the server
secret is rejected with 403 by every operation before any storage access: the
store is unchanged and the storage-event trace is empty, whatever the
environment does. -/
theorem c8_auth_failure_no_storage (apiKey : String) (key : Option String)
    (urlOf : String → String) (t : Timestamp) (bytes : List Nat) (f : Fault)
    (s : Store) (h : key ≠ some apiKey) :
    (∃ d, trigger_capture apiKey key f s = ⟨.httpError 403 d, s, []⟩) ∧
    (∃ d, check_trigger apiKey key f s = ⟨.httpError 403 d, s, []⟩) ∧
    (∃ d, upload_image apiKey key urlOf t bytes f s = ⟨.httpError 403 d, s, []⟩) ∧
    (∃ d, get_images apiKey key f s = ⟨.httpError 403 d, s, []⟩) := by
  rcases key with _ | k
  · exact ⟨⟨_, rfl⟩, ⟨_, rfl⟩, ⟨_, rfl⟩, ⟨_, rfl⟩⟩
  · have hk : ¬(k = apiKey) := fun he => h (by rw [he])
    have hv := verify_api_key_ne apiKey k hk
    refine ⟨⟨"Could not validate credentials", ?_⟩,
      ⟨"Could not validate credentials", ?_⟩,
      ⟨"Could not validate credentials", ?_⟩,
      ⟨"Could not validate credentials", ?_⟩⟩ <;>
      simp [trigger_capture, check_trigger, upload_image, get_images, hv]

theorem c8_auth_failure_witness :
    (∃ d, trigger_capture "k" (some "wrong") noFault emptyStore
        = ⟨.httpError 403 d, emptyStore, []⟩) ∧
    (∃ d, check_trigger "k" (some "wrong") noFault emptyStore
        = ⟨.httpError 403 d, emptyStore, []⟩) ∧
    (∃ d, upload_image "k" (some "wrong") (fun n => "https://blob.host/" ++ n)
        ⟨2026, 10, 12, 9, 30, 1, 123456⟩ [7] noFault emptyStore
        = ⟨.httpError 403 d, emptyStore, []⟩) ∧
    (∃ d, get_images "k" (some "wrong") noFault emptyStore
        = ⟨.httpError 403 d, emptyStore, []⟩) :=
  c8_auth_failure_no_storage "k" (some "wrong") (fun n => "https://blob.host/" ++ n)
    ⟨2026, 10, 12, 9, 30, 1, 123456⟩ [7] noFault emptyStore (by decide)

/-- C9: under the primary-key invariant (at most one control row with id = 1),
acquiring a connection leaves exactly one id = 1 row — seeding it through the
conflict-tolerant insert when absent — the flag updates neither insert nor
delete rows, and after every operation run with a valid key and no fault the
control table holds exactly one id = 1 row (for upload, when the payload is
non-empty; an empty payload performs no storage access at all). -/
theorem c9_single_control_row (apiKey : String) (urlOf : String → String)
    (t : Timestamp) (bytes : List Nat) (s : Store) (b : Bool)
    (h : ctrlCount s.camera_control ≤ 1) :
    ctrlCount (initSeed s.camera_control) = 1 ∧
    ctrlCount (setTriggerRows b s.camera_control) = ctrlCount s.camera_control ∧
    ctrlCount (trigger_capture apiKey (some apiKey)
      noFault s).store.camera_control = 1 ∧
    ctrlCount (check_trigger apiKey (some apiKey)
      noFault s).store.camera_control = 1 ∧
    (bytes ≠ [] →
      ctrlCount (upload_image apiKey (some apiKey) urlOf t bytes
        noFault s).store.camera_control = 1) ∧
    ctrlCount (get_images apiKey (some apiKey)
      noFault s).store.camera_control = 1 := by
  refine ⟨ctrlCount_initSeed s.camera_control h,
    ctrlCount_setTriggerRows b s.camera_control, ?_, ?_, ?_, ?_⟩
  · rw [trigger_capture_run]
    show ctrlCount (setTriggerRows true (initSeed s.camera_control)) = 1
    rw [ctrlCount_setTriggerRows, ctrlCount_initSeed s.camera_control h]
  · rw [check_trigger_run]
    rcases hb : (rowFlag (initSeed s.camera_control)).getD false
    · show ctrlCount (initSeed s.camera_control) = 1
      exact ctrlCount_initSeed s.camera_control h
    · show ctrlCount (setTriggerRows false (initSeed s.camera_control)) = 1
      rw [ctrlCount_setTriggerRows, ctrlCount_initSeed s.camera_control h]
  · intro hbytes
    rw [upload_image_run apiKey urlOf t bytes s hbytes]
    show ctrlCount (initSeed s.camera_control) = 1
    exact ctrlCount_initSeed s.camera_control h
  · rw [get_images_run]
    show ctrlCount (initSeed s.camera_control) = 1
    exact ctrlCount_initSeed s.camera_control h

theorem c9_single_control_row_witness :
    ctrlCount (initSeed emptyStore.camera_control) = 1 ∧
    ctrlCount (setTriggerRows true emptyStore.camera_control)
      = ctrlCount emptyStore.camera_control ∧
    ctrlCount (trigger_capture "k" (some "k")
      noFault emptyStore).store.camera_control = 1 ∧
    ctrlCount (check_trigger "k" (some "k")
      noFault emptyStore).store.camera_control = 1 ∧
    (([7] : List Nat) ≠ [] →
      ctrlCount (upload_image "k" (some "k") (fun n => "https://blob.host/" ++ n)
        ⟨2026, 10, 12, 9, 30, 1, 123456⟩ [7]
        noFault emptyStore).store.camera_control = 1) ∧
    ctrlCount (get_images "k" (some "k")
      noFault emptyStore).store.camera_control = 1 :=
  c9_single_control_row "k" (fun n => "https://blob.host/" ++ n)
    ⟨2026, 10, 12, 9, 30, 1, 123456⟩ [7] emptyStore true (by decide)

end Esp32CamMonitor
